import Mathlib

/-!
Shallow embedding of `etl/crypto_etl.py` (Crypto-Price-Tracker-with-ETL-Dashboard).

The script runs an infinite ETL loop: fetch market data over HTTP
(`get_crypto_data`), shape and batch-insert it into a PostgreSQL table
(`insert_data`, which calls `connect_db`), notify a downstream service
(`notify_frontend_update`), and sleep (`main` plus the `while True` loop).

The embedding models:
 - raw API entries and shaped records as Lean structures (JSON null /
   missing key collapse to `none`; Python string truthiness is
   `none`-or-empty-string falsy);
 - the external world (network outcome, database faults, the clock) as
   explicit parameters: `FetchOutcome` for the HTTP GET, `DBFaults` for
   which psycopg2 calls raise, a `ts : String` for `datetime.now()`;
 - effects as data: the committed table is threaded through as a list,
   `print` calls become a `LogMsg` list, `sys.exit` and uncaught Python
   exceptions become an `ExecResult`, resource handling becomes Boolean
   fields recording which handles were acquired and released.

Python exception semantics is traced by hand at each branch:
 - `connect_db` catches `psycopg2.OperationalError` and calls
   `sys.exit(1)`; the resulting `SystemExit` is not a `psycopg2.Error`,
   so `insert_data`'s `except psycopg2.Error` does not catch it and it
   propagates out of `main` and out of the `while True` loop.
 - In `insert_data`, if `conn.cursor()` raises a `psycopg2.Error`, the
   `except` block runs (log, rollback) and the `finally` block then
   evaluates `cur.close()` with the local `cur` never assigned, raising
   `UnboundLocalError`; `conn.close()` on the next line is never reached,
   so the connection is not released and the error propagates uncaught.
 - If `cur.executemany` or `conn.commit` raises a `psycopg2.Error`, the
   `except` block logs and rolls back, and `finally` closes cursor and
   connection; `insert_data` returns normally.
-/

namespace CryptoETL

/-- One raw entry of the JSON array returned by the CoinGecko markets
endpoint, restricted to the keys `insert_data` reads via `crypto.get`.
A missing key and a JSON `null` both surface as `None` in Python, hence
a single `none` here. -/
structure Entry where
  symbol : Option String
  name : Option String
  current_price : Option Rat
  market_cap : Option Rat
  total_volume : Option Rat
deriving DecidableEq

/-- One shaped tuple as appended to `records_to_insert`:
`(symbol.lower(), name, current_price, market_cap, total_volume,
current_timestamp)`. -/
structure MarketRecord where
  symbol : String
  name : String
  current_price : Rat
  market_cap : Option Rat
  total_volume : Option Rat
  timestamp : String
deriving DecidableEq

/-- Python truthiness of an optional string: `None` and `""` are falsy. -/
def truthyStr : Option String → Bool
  | some s => !s.isEmpty
  | none => false

/-- The guard `if symbol and name and current_price is not None` of the
shaping loop. Note the asymmetry in the source: symbol and name are
tested for truthiness (so an empty string is also rejected), while the
price is only tested against `None` (a price of `0` is retained). -/
def entryValid (e : Entry) : Bool :=
  truthyStr e.symbol && truthyStr e.name && e.current_price.isSome

/-- Python's `str.lower()` as used in `symbol.lower()`: lowercase the
string character by character (the symbols involved are ASCII tickers). -/
def pyLower (s : String) : String := String.mk (s.data.map Char.toLower)

/-- One iteration of the shaping loop: either the tuple appended to
`records_to_insert`, or `none` when the entry is skipped. -/
def shapeEntry (ts : String) (e : Entry) : Option MarketRecord :=
  match e.symbol, e.name, e.current_price with
  | some s, some n, some p =>
      if s.isEmpty || n.isEmpty then none
      else some { symbol := pyLower s, name := n, current_price := p,
                  market_cap := e.market_cap, total_volume := e.total_volume,
                  timestamp := ts }
  | _, _, _ => none

/-- The full shaping pass of `insert_data`: the list
`records_to_insert` built from `data`, in input order. -/
def shapeRecords (ts : String) (data : List Entry) : List MarketRecord :=
  data.filterMap (shapeEntry ts)

lemma shapeEntry_eq_none_of_invalid (ts : String) (e : Entry)
    (h : entryValid e = false) : shapeEntry ts e = none := by
  unfold shapeEntry
  unfold entryValid truthyStr at h
  rcases e with ⟨s?, n?, p?, mc, tv⟩
  cases s? <;> cases n? <;> cases p? <;> simp_all

lemma shapeEntry_of_valid (ts : String) (e : Entry)
    (h : entryValid e = true) :
    ∃ s n p, e.symbol = some s ∧ e.name = some n ∧ e.current_price = some p ∧
      shapeEntry ts e =
        some { symbol := pyLower s, name := n, current_price := p,
               market_cap := e.market_cap, total_volume := e.total_volume,
               timestamp := ts } := by
  unfold entryValid truthyStr at h
  rcases e with ⟨s?, n?, p?, mc, tv⟩
  cases s? <;> cases n? <;> cases p? <;> simp_all [shapeEntry]

lemma shapeEntry_isSome_iff (ts : String) (e : Entry) :
    (shapeEntry ts e).isSome = entryValid e := by
  cases h : entryValid e
  · simp [shapeEntry_eq_none_of_invalid ts e h]
  · obtain ⟨s, n, p, _, _, _, hs⟩ := shapeEntry_of_valid ts e h
    simp [hs]

lemma shapeRecords_length (ts : String) (data : List Entry) :
    (shapeRecords ts data).length = data.countP entryValid := by
  induction data with
  | nil => rfl
  | cons e l ih =>
    unfold shapeRecords at ih ⊢
    cases h : entryValid e
    · simp [List.filterMap_cons, shapeEntry_eq_none_of_invalid ts e h,
        List.countP_cons, h, ih]
    · obtain ⟨s, n, p, _, _, _, hs⟩ := shapeEntry_of_valid ts e h
      simp [List.filterMap_cons, hs, List.countP_cons, h, ih]

lemma mem_shapeRecords_timestamp (ts : String) (data : List Entry)
    (r : MarketRecord) (h : r ∈ shapeRecords ts data) : r.timestamp = ts := by
  unfold shapeRecords at h
  rw [List.mem_filterMap] at h
  obtain ⟨e, _, he⟩ := h
  cases hv : entryValid e
  · rw [shapeEntry_eq_none_of_invalid ts e hv] at he
    exact absurd he (by simp)
  · obtain ⟨s, n, p, _, _, _, hs⟩ := shapeEntry_of_valid ts e hv
    rw [hs] at he
    cases he
    rfl

/-- Outcome of the one `requests.get` call in `get_crypto_data`, as an
explicit environment parameter. The three error constructors are the
exceptions the code can see there: `requests.exceptions.Timeout`, any
other `requests.exceptions.RequestException` (transport failure), and
the `requests.exceptions.HTTPError` raised by `raise_for_status` on a
4xx/5xx status (`HTTPError` is a subclass of `RequestException`). -/
inductive FetchOutcome where
  | ok (entries : List Entry)
  | timeout
  | requestError
  | httpStatusError
deriving DecidableEq

/-- Which of the psycopg2 calls raise in this run: an environment
oracle for `psycopg2.connect` (raising `OperationalError`),
`conn.cursor()`, `cur.executemany`, `conn.commit` (each raising a
`psycopg2.Error`), and for `requests.post` in the notifier (raising a
`RequestException`). -/
structure DBFaults where
  connectFails : Bool
  cursorFails : Bool
  executeFails : Bool
  commitFails : Bool
  notifyFails : Bool
deriving DecidableEq

/-- The `print` reports of one cycle, as tags rather than full
formatted strings. -/
inductive LogMsg where
  | fetchTimeout
  | fetchRequestError
  | dbConnectError
  | noDataToInsert
  | skippingIncomplete (cryptoName : Option String)
  | insertedRecords (n : Nat) (ts : String)
  | noValidRecords
  | insertErrorLogged
  | notifySuccessLogged
  | notifyErrorLogged
  | noNewData
deriving DecidableEq

/-- How a piece of the script terminates: a normal return, a
`sys.exit(code)` whose `SystemExit` reaches top level (process
terminates with that status), or an uncaught Python exception reaching
top level (process dies with a traceback). -/
inductive ExecResult where
  | ok
  | exited (code : Nat)
  | uncaught (exn : String)
deriving DecidableEq

/-- Everything observable about one `insert_data(data)` call: the
committed `prices` table before/after, how the call terminated, which
database handles were acquired and released, whether `executemany` ran
and whether `commit`/`rollback` happened, and the reports printed. -/
structure SinkOutcome where
  table : List MarketRecord
  result : ExecResult
  connAcquired : Bool
  connReleased : Bool
  cursorOpened : Bool
  cursorClosed : Bool
  executedInsert : Bool
  committed : Bool
  rolledBack : Bool
  logs : List LogMsg
deriving DecidableEq

/-- `get_crypto_data()`: returns the decoded JSON list on success; the
two `except` clauses catch `Timeout` and every other
`RequestException` (including `HTTPError` from `raise_for_status`),
print the cause and return `None`. The total Lean function witnesses
that no exception escapes this boundary. -/
def get_crypto_data : FetchOutcome → Option (List Entry) × List LogMsg
  | .ok entries => (some entries, [])
  | .timeout => (none, [.fetchTimeout])
  | .requestError => (none, [.fetchRequestError])
  | .httpStatusError => (none, [.fetchRequestError])

/-- The skip reports printed by the shaping loop of `insert_data`, one
per invalid entry, in input order
(`Skipping incomplete data for crypto: ...` with `crypto.get('name', 'N/A')`). -/
def skipLogs (data : List Entry) : List LogMsg :=
  (data.filter (fun e => !entryValid e)).map (fun e => LogMsg.skippingIncomplete e.name)

/-- `insert_data(data)` with the world passed explicitly: `f` says which
external calls fail, `ts` is the value of
`datetime.now().isoformat(timespec='milliseconds')`, `table0` is the
committed `prices` table when the call starts. Branches, in source
order:
 1. `if not data: print; return` — the empty list is falsy.
 2. `conn = connect_db()`: on `OperationalError` the helper prints and
    calls `sys.exit(1)`; `SystemExit` is not caught by
    `except psycopg2.Error` and `finally` sees `conn = None`, so
    nothing is closed and the process terminates.
 3. `cur = conn.cursor()`: a `psycopg2.Error` here is caught (print,
    `conn.rollback()`), but `finally` then evaluates `cur.close()`
    with `cur` unbound: `UnboundLocalError` propagates and
    `conn.close()` is never reached — the connection is not released.
 4. Shaping produced no records: print `No valid records to insert.`,
    no `executemany`, `finally` closes cursor and connection.
 5. `executemany` or `commit` raises: caught, print, `rollback()` (so
    the committed table is unchanged), `finally` closes both, normal
    return.
 6. Success: all shaped records committed in one transaction. -/
def insert_data (f : DBFaults) (ts : String) (table0 : List MarketRecord)
    (data : List Entry) : SinkOutcome :=
  if data.isEmpty then
    { table := table0, result := .ok, connAcquired := false,
      connReleased := false, cursorOpened := false, cursorClosed := false,
      executedInsert := false, committed := false, rolledBack := false,
      logs := [.noDataToInsert] }
  else if f.connectFails then
    { table := table0, result := .exited 1, connAcquired := false,
      connReleased := false, cursorOpened := false, cursorClosed := false,
      executedInsert := false, committed := false, rolledBack := false,
      logs := [.dbConnectError] }
  else if f.cursorFails then
    { table := table0, result := .uncaught "UnboundLocalError",
      connAcquired := true, connReleased := false, cursorOpened := false,
      cursorClosed := false, executedInsert := false, committed := false,
      rolledBack := true, logs := [.insertErrorLogged] }
  else if (shapeRecords ts data).isEmpty then
    { table := table0, result := .ok, connAcquired := true,
      connReleased := true, cursorOpened := true, cursorClosed := true,
      executedInsert := false, committed := false, rolledBack := false,
      logs := skipLogs data ++ [.noValidRecords] }
  else if f.executeFails then
    { table := table0, result := .ok, connAcquired := true,
      connReleased := true, cursorOpened := true, cursorClosed := true,
      executedInsert := false, committed := false, rolledBack := true,
      logs := skipLogs data ++ [.insertErrorLogged] }
  else if f.commitFails then
    { table := table0, result := .ok, connAcquired := true,
      connReleased := true, cursorOpened := true, cursorClosed := true,
      executedInsert := true, committed := false, rolledBack := true,
      logs := skipLogs data ++ [.insertErrorLogged] }
  else
    { table := table0 ++ shapeRecords ts data, result := .ok,
      connAcquired := true, connReleased := true, cursorOpened := true,
      cursorClosed := true, executedInsert := true, committed := true,
      rolledBack := false,
      logs := skipLogs data ++ [.insertedRecords (shapeRecords ts data).length ts] }

/-- `notify_frontend_update()`: one `requests.post` is always issued;
`raise_for_status`/transport errors are caught and only change the
report. Returns the number of POSTs issued (always 1) and the log. -/
def notify_frontend_update (f : DBFaults) : Nat × List LogMsg :=
  (1, [if f.notifyFails then .notifyErrorLogged else .notifySuccessLogged])

/-- Everything observable about one `main()` cycle: final committed
table, how the cycle terminated, the number of notifier POSTs issued,
the sink outcome when `insert_data` was reached, and the reports. -/
structure CycleOutcome where
  table : List MarketRecord
  result : ExecResult
  posts : Nat
  sinkRun : Option SinkOutcome
  logs : List LogMsg
deriving DecidableEq

/-- One `main()` cycle. `if crypto_data:` is a truthiness test, so both
a `None` result and an empty list take the no-data branch (no insert,
no notify). Otherwise `insert_data` runs; if it terminates the process
(`SystemExit`) or raises (`UnboundLocalError`), `notify_frontend_update`
is never reached; if it returns normally — including the caught
insert-failure path — the notifier POST is issued. -/
def main (fetch : FetchOutcome) (f : DBFaults) (ts : String)
    (table0 : List MarketRecord) : CycleOutcome :=
  match get_crypto_data fetch with
  | (some data, flogs) =>
    if data.isEmpty then
      { table := table0, result := .ok, posts := 0, sinkRun := none,
        logs := flogs ++ [.noNewData] }
    else
      match (insert_data f ts table0 data).result with
      | .ok =>
        { table := (insert_data f ts table0 data).table, result := .ok,
          posts := (notify_frontend_update f).1,
          sinkRun := some (insert_data f ts table0 data),
          logs := flogs ++ (insert_data f ts table0 data).logs
                    ++ (notify_frontend_update f).2 }
      | r =>
        { table := (insert_data f ts table0 data).table, result := r,
          posts := 0, sinkRun := some (insert_data f ts table0 data),
          logs := flogs ++ (insert_data f ts table0 data).logs }
  | (none, flogs) =>
    { table := table0, result := .ok, posts := 0, sinkRun := none,
      logs := flogs ++ [.noNewData] }

/-- The `while True:` driver, run on the first finitely many scheduled
cycles (each with its own fetch outcome, fault oracle and clock
reading). The committed table threads from cycle to cycle. A cycle
ending in `SystemExit` or an uncaught exception stops the process;
otherwise the loop sleeps and continues, and after the given schedule
it is still running (`.ok`). -/
def runLoop (table0 : List MarketRecord) :
    List (FetchOutcome × DBFaults × String) → List CycleOutcome × ExecResult
  | [] => ([], .ok)
  | (fetch, f, ts) :: rest =>
    match (main fetch f ts table0).result with
    | .ok =>
      let next := runLoop (main fetch f ts table0).table rest
      ((main fetch f ts table0) :: next.1, next.2)
    | r => ([main fetch f ts table0], r)

/-! Concrete fixtures used by witnesses and counterexamples. -/

def ts0 : String := "2026-10-12T00:00:00.000"

def entryBTC : Entry :=
  { symbol := some "BTC", name := some "Bitcoin",
    current_price := some 50000, market_cap := some 900000000,
    total_volume := some 30000000 }

def entryETH : Entry :=
  { symbol := some "ETH", name := some "Ethereum",
    current_price := some 3000, market_cap := some 500000,
    total_volume := some 20000 }

def entryBad : Entry :=
  { symbol := some "XYZ", name := some "Foo",
    current_price := none, market_cap := none, total_volume := none }

def noFaults : DBFaults :=
  { connectFails := false, cursorFails := false, executeFails := false,
    commitFails := false, notifyFails := false }

def connFault : DBFaults :=
  { connectFails := true, cursorFails := false, executeFails := false,
    commitFails := false, notifyFails := false }

def cursorFault : DBFaults :=
  { connectFails := false, cursorFails := true, executeFails := false,
    commitFails := false, notifyFails := false }

def executeFault : DBFaults :=
  { connectFails := false, cursorFails := false, executeFails := true,
    commitFails := false, notifyFails := false }

lemma isEmpty_false_of_ne_nil {α : Type} {l : List α} (h : l ≠ []) :
    l.isEmpty = false := by
  cases l with
  | nil => exact absurd rfl h
  | cons a l => rfl

lemma insert_data_connect_fails (f : DBFaults) (ts : String)
    (table0 : List MarketRecord) (data : List Entry)
    (hne : data ≠ []) (hc : f.connectFails = true) :
    insert_data f ts table0 data =
      { table := table0, result := .exited 1, connAcquired := false,
        connReleased := false, cursorOpened := false, cursorClosed := false,
        executedInsert := false, committed := false, rolledBack := false,
        logs := [.dbConnectError] } := by
  unfold insert_data
  rw [isEmpty_false_of_ne_nil hne, hc]
  simp

/-- Claim C1 counterexample: in the very first cycle after startup the
fetch succeeds with one valid entry but `psycopg2.connect` raises
`OperationalError`; `connect_db` calls `sys.exit(1)`, the cycle ends
with the process terminated, the notifier never fires, and the
scheduled second cycle never runs — contradicting "the failure is
fatal only to that cycle ... the loop continues to the next cycle; the
process is not terminated". -/
theorem C1_counterexample :
    (main (.ok [entryBTC]) connFault ts0 []).result = .exited 1 ∧
    (runLoop [] [(.ok [entryBTC], connFault, ts0),
                 (.ok [entryBTC], noFaults, ts0)]).2 = .exited 1 ∧
    (runLoop [] [(.ok [entryBTC], connFault, ts0),
                 (.ok [entryBTC], noFaults, ts0)]).1.length = 1 := by
  decide

/-- Claim C1 (amended): if acquiring the database connection fails
during a cycle, the failure is reported and is fatal to the whole
process, at any point in the run, not only at startup: `connect_db`
calls `sys.exit(1)`, no notification is issued, and the loop does not
continue to the next cycle. -/
theorem C1_connect_failure_fatal_to_process
    (data : List Entry) (f : DBFaults) (ts : String)
    (table0 : List MarketRecord)
    (rest : List (FetchOutcome × DBFaults × String))
    (hne : data ≠ []) (hc : f.connectFails = true) :
    (main (.ok data) f ts table0).result = .exited 1 ∧
    LogMsg.dbConnectError ∈ (main (.ok data) f ts table0).logs ∧
    (main (.ok data) f ts table0).posts = 0 ∧
    runLoop table0 ((.ok data, f, ts) :: rest) =
      ([main (.ok data) f ts table0], .exited 1) := by
  have hI := insert_data_connect_fails f ts table0 data hne hc
  have hmain : main (.ok data) f ts table0 =
      { table := table0, result := .exited 1, posts := 0,
        sinkRun := some (insert_data f ts table0 data),
        logs := [] ++ (insert_data f ts table0 data).logs } := by
    unfold main
    simp only [get_crypto_data]
    rw [isEmpty_false_of_ne_nil hne, hI]
    simp
  refine ⟨by rw [hmain], ?_, by rw [hmain], ?_⟩
  · rw [hmain]
    simp [hI]
  · unfold runLoop
    rw [hmain]

/-- Claim C1 witness. -/
theorem C1_connect_failure_fatal_to_process_witness :
    (main (.ok [entryETH]) connFault ts0 []).result = .exited 1 ∧
    LogMsg.dbConnectError ∈ (main (.ok [entryETH]) connFault ts0 []).logs ∧
    (main (.ok [entryETH]) connFault ts0 []).posts = 0 ∧
    runLoop [] [(.ok [entryETH], connFault, ts0)] =
      ([main (.ok [entryETH]) connFault ts0 []], .exited 1) :=
  C1_connect_failure_fatal_to_process [entryETH] connFault ts0 [] []
    (by decide) (by decide)

lemma countP_valid_add_invalid (data : List Entry) :
    data.countP entryValid + data.countP (fun e => !entryValid e) =
      data.length := by
  induction data with
  | nil => rfl
  | cons e l ih =>
    rw [List.countP_cons, List.countP_cons, List.length_cons]
    cases h : entryValid e <;> simp [h] <;> omega

/-- Claim C2: for every input list of raw entries, the shaping pass of
`insert_data` excludes exactly those entries whose symbol or name is
missing (falsy) or whose price is null; the number of shaped records is
the input count minus the count of excluded entries; and every retained
entry is shaped to the tuple
`(symbol.lower(), name, current_price, market_cap, total_volume, ts)`. -/
theorem C2_shaper_excludes_exactly_incomplete (ts : String) (data : List Entry) :
    (shapeRecords ts data).length =
      data.length - data.countP (fun e => !entryValid e) ∧
    (∀ e ∈ data, entryValid e = false → shapeEntry ts e = none) ∧
    (∀ e ∈ data, entryValid e = true →
      ∃ s n p, e.symbol = some s ∧ e.name = some n ∧
        e.current_price = some p ∧
        shapeEntry ts e =
          some { symbol := pyLower s, name := n, current_price := p,
                 market_cap := e.market_cap, total_volume := e.total_volume,
                 timestamp := ts }) := by
  refine ⟨?_, fun e _ h => shapeEntry_eq_none_of_invalid ts e h,
    fun e _ h => shapeEntry_of_valid ts e h⟩
  rw [shapeRecords_length]
  have h := countP_valid_add_invalid data
  omega

/-- Claim C2 witness: one valid and one incomplete entry; one shaped
record comes out and the count matches. -/
theorem C2_shaper_excludes_exactly_incomplete_witness :
    (shapeRecords ts0 [entryETH, entryBad]).length =
      [entryETH, entryBad].length -
        [entryETH, entryBad].countP (fun e => !entryValid e) ∧
    (∀ e ∈ [entryETH, entryBad], entryValid e = false →
      shapeEntry ts0 e = none) ∧
    (∀ e ∈ [entryETH, entryBad], entryValid e = true →
      ∃ s n p, e.symbol = some s ∧ e.name = some n ∧
        e.current_price = some p ∧
        shapeEntry ts0 e =
          some { symbol := pyLower s, name := n, current_price := p,
                 market_cap := e.market_cap, total_volume := e.total_volume,
                 timestamp := ts0 }) :=
  C2_shaper_excludes_exactly_incomplete ts0 [entryETH, entryBad]

/-- Claim C6: all records produced by one shaping pass carry the same
timestamp — the single `current_timestamp` computed before the loop. -/
theorem C6_batch_shares_one_timestamp (ts : String) (data : List Entry)
    (r1 r2 : MarketRecord) (h1 : r1 ∈ shapeRecords ts data)
    (h2 : r2 ∈ shapeRecords ts data) : r1.timestamp = r2.timestamp := by
  rw [mem_shapeRecords_timestamp ts data r1 h1,
    mem_shapeRecords_timestamp ts data r2 h2]

/-- The record that `entryBTC` shapes to. -/
def recBTC : MarketRecord :=
  { symbol := "btc", name := "Bitcoin", current_price := 50000,
    market_cap := some 900000000, total_volume := some 30000000,
    timestamp := ts0 }

/-- The record that `entryETH` shapes to. -/
def recETH : MarketRecord :=
  { symbol := "eth", name := "Ethereum", current_price := 3000,
    market_cap := some 500000, total_volume := some 20000,
    timestamp := ts0 }

/-- Claim C6 witness: the two records shaped from a two-entry batch
have equal timestamps. -/
theorem C6_batch_shares_one_timestamp_witness :
    recBTC ∈ shapeRecords ts0 [entryBTC, entryETH] ∧
    recETH ∈ shapeRecords ts0 [entryBTC, entryETH] ∧
    recBTC.timestamp = recETH.timestamp :=
  ⟨by decide, by decide,
    C6_batch_shares_one_timestamp ts0 [entryBTC, entryETH] recBTC recETH
      (by decide) (by decide)⟩

/-- Claim C7: for every valid entry, the shaped record's symbol is the
lowercased input symbol (`symbol.lower()`) and the name passes through
unchanged. -/
theorem C7_symbol_lowercased_name_unchanged (ts : String) (e : Entry)
    (s n : String) (p : Rat) (hs : e.symbol = some s) (hn : e.name = some n)
    (hp : e.current_price = some p) (hv : entryValid e = true) :
    ∃ r, shapeEntry ts e = some r ∧ r.symbol = pyLower s ∧ r.name = n ∧
      r.current_price = p := by
  obtain ⟨s', n', p', hs', hn', hp', hr⟩ := shapeEntry_of_valid ts e hv
  rw [hs] at hs'
  rw [hn] at hn'
  rw [hp] at hp'
  cases hs'
  cases hn'
  cases hp'
  exact ⟨_, hr, rfl, rfl, rfl⟩

/-- Claim C7 witness: input symbol `"BTC"` yields output symbol
`"btc"`, with the name `"Bitcoin"` unchanged. -/
theorem C7_symbol_lowercased_name_unchanged_witness :
    entryBTC.symbol = some "BTC" ∧
    ∃ r, shapeEntry ts0 entryBTC = some r ∧ r.symbol = pyLower "BTC" ∧
      r.name = "Bitcoin" ∧ r.current_price = 50000 :=
  ⟨rfl, C7_symbol_lowercased_name_unchanged ts0 entryBTC "BTC" "Bitcoin" 50000
    rfl rfl rfl (by decide)⟩

/-- Claim C10: the shaping pass is order-preserving — the output is in
one-to-one, order-respecting correspondence with the sublist of
retained (valid) input entries. -/
theorem C10_shaper_preserves_order (ts : String) (data : List Entry) :
    List.Forall₂ (fun e r => shapeEntry ts e = some r)
      (data.filter entryValid) (shapeRecords ts data) := by
  induction data with
  | nil => exact List.Forall₂.nil
  | cons e l ih =>
    unfold shapeRecords at ih ⊢
    cases hv : entryValid e
    · have h1 : shapeEntry ts e = none := shapeEntry_eq_none_of_invalid ts e hv
      simp only [List.filterMap_cons, h1, List.filter_cons, hv,
        Bool.false_eq_true, if_false]
      exact ih
    · obtain ⟨s, n, p, _, _, _, hr⟩ := shapeEntry_of_valid ts e hv
      simp only [List.filterMap_cons, hr, List.filter_cons, hv, if_true]
      exact List.Forall₂.cons hr ih

/-- Claim C10 witness: a mixed batch, applied at a concrete input. -/
theorem C10_shaper_preserves_order_witness :
    List.Forall₂ (fun e r => shapeEntry ts0 e = some r)
      ([entryBTC, entryBad, entryETH].filter entryValid)
      (shapeRecords ts0 [entryBTC, entryBad, entryETH]) :=
  C10_shaper_preserves_order ts0 [entryBTC, entryBad, entryETH]

lemma eq_nil_of_isEmpty {α : Type} {l : List α} (h : l.isEmpty = true) :
    l = [] := by
  cases l with
  | nil => rfl
  | cons a l => simp at h

lemma insert_data_result_ok (f : DBFaults) (ts : String)
    (table0 : List MarketRecord) (data : List Entry)
    (hc : f.connectFails = false) (hcur : f.cursorFails = false) :
    (insert_data f ts table0 data).result = .ok := by
  cases hd : data.isEmpty <;> cases hrec : (shapeRecords ts data).isEmpty <;>
    cases he : f.executeFails <;> cases hcm : f.commitFails <;>
      simp [insert_data, hd, hc, hcur, hrec, he, hcm]

/-- Claim C3: when the batched insert (`executemany` or `commit`)
fails, the transaction is rolled back and the error reported; the
committed `prices` table is exactly what it was before the call — no
partial commit — and `insert_data` returns normally so the loop
continues. Stated for runs where the connection and cursor are
acquired (their failures are settled separately under C1 and C8). -/
theorem C3_insert_failure_rolled_back (f : DBFaults) (ts : String)
    (table0 : List MarketRecord) (data : List Entry)
    (hc : f.connectFails = false) (hcur : f.cursorFails = false)
    (hfail : f.executeFails = true ∨ f.commitFails = true) :
    (insert_data f ts table0 data).table = table0 ∧
    (insert_data f ts table0 data).committed = false ∧
    (shapeRecords ts data ≠ [] →
      (insert_data f ts table0 data).rolledBack = true ∧
      LogMsg.insertErrorLogged ∈ (insert_data f ts table0 data).logs ∧
      (insert_data f ts table0 data).result = .ok) := by
  cases hd : data.isEmpty
  · cases hrec : (shapeRecords ts data).isEmpty
    · rcases hfail with hf | hf
      · cases hcm : f.commitFails <;>
          simp [insert_data, hd, hc, hcur, hrec, hf, hcm]
      · cases he : f.executeFails <;>
          simp [insert_data, hd, hc, hcur, hrec, hf, he]
    · have h0 : shapeRecords ts data = [] := eq_nil_of_isEmpty hrec
      simp [insert_data, hd, hc, hcur, hrec, h0]
  · have h0 : data = [] := eq_nil_of_isEmpty hd
    subst h0
    simp [insert_data, shapeRecords]

/-- Claim C3 witness: a failing `executemany` over one valid entry on
a non-empty initial table. -/
theorem C3_insert_failure_rolled_back_witness :
    (insert_data executeFault ts0 [recBTC] [entryETH]).table = [recBTC] ∧
    (insert_data executeFault ts0 [recBTC] [entryETH]).committed = false ∧
    (shapeRecords ts0 [entryETH] ≠ [] →
      (insert_data executeFault ts0 [recBTC] [entryETH]).rolledBack = true ∧
      LogMsg.insertErrorLogged ∈
        (insert_data executeFault ts0 [recBTC] [entryETH]).logs ∧
      (insert_data executeFault ts0 [recBTC] [entryETH]).result = .ok) :=
  C3_insert_failure_rolled_back executeFault ts0 [recBTC] [entryETH]
    rfl rfl (Or.inl rfl)

/-- Claim C4: a timeout, transport error, or HTTP-status error in the
fetch is caught inside `get_crypto_data`, which returns `None` (the
explicit no-data signal, as a total Lean function: nothing escapes the
boundary); the cycle then performs no insert and no notify and still
completes normally with the table untouched. -/
theorem C4_fetch_error_no_insert_no_notify (fetch : FetchOutcome)
    (f : DBFaults) (ts : String) (table0 : List MarketRecord)
    (h : fetch = .timeout ∨ fetch = .requestError ∨ fetch = .httpStatusError) :
    (get_crypto_data fetch).1 = none ∧
    (main fetch f ts table0).result = .ok ∧
    (main fetch f ts table0).posts = 0 ∧
    (main fetch f ts table0).sinkRun = none ∧
    (main fetch f ts table0).table = table0 := by
  rcases h with h | h | h <;> subst h <;> exact ⟨rfl, rfl, rfl, rfl, rfl⟩

/-- Claim C4 witness: the timeout case. -/
theorem C4_fetch_error_no_insert_no_notify_witness :
    (get_crypto_data .timeout).1 = none ∧
    (main .timeout noFaults ts0 [recBTC]).result = .ok ∧
    (main .timeout noFaults ts0 [recBTC]).posts = 0 ∧
    (main .timeout noFaults ts0 [recBTC]).sinkRun = none ∧
    (main .timeout noFaults ts0 [recBTC]).table = [recBTC] :=
  C4_fetch_error_no_insert_no_notify .timeout noFaults ts0 [recBTC]
    (Or.inl rfl)

/-- Claim C5 counterexample: the fetch returns a non-empty list, but
`psycopg2.connect` fails, `connect_db` calls `sys.exit(1)`, and the
notifier POST is never issued in that cycle — so "whenever the fetch
returns a non-empty list of entries, the Notifier POST is issued
exactly once in that cycle" is false as stated. -/
theorem C5_counterexample :
    ([entryETH] : List Entry) ≠ [] ∧
    (main (.ok [entryETH]) connFault ts0 []).posts = 0 := by
  decide

/-- Claim C5 (amended): whenever the fetch returns a non-empty list
and the database connection and cursor are acquired, the notifier POST
is issued exactly once in that cycle, even when the batched insert
fails and is rolled back — `insert_data` swallows the `psycopg2.Error`
and returns normally, and `main` then always calls
`notify_frontend_update`. (If connection acquisition fails, the
process exits before the notifier is reached.) -/
theorem C5_notify_once_insert_failure_swallowed (data : List Entry)
    (f : DBFaults) (ts : String) (table0 : List MarketRecord)
    (hne : data ≠ []) (hc : f.connectFails = false)
    (hcur : f.cursorFails = false) :
    (insert_data f ts table0 data).result = .ok ∧
    (main (.ok data) f ts table0).posts = 1 := by
  have hres := insert_data_result_ok f ts table0 data hc hcur
  refine ⟨hres, ?_⟩
  unfold main
  simp only [get_crypto_data]
  rw [isEmpty_false_of_ne_nil hne]
  simp only [Bool.false_eq_true, if_false]
  rw [hres]
  rfl

/-- Claim C5 witness: one valid entry, `executemany` fails and is
rolled back, and the POST still fires once. -/
theorem C5_notify_once_insert_failure_swallowed_witness :
    executeFault.executeFails = true ∧
    (insert_data executeFault ts0 [] [entryETH]).result = .ok ∧
    (main (.ok [entryETH]) executeFault ts0 []).posts = 1 :=
  ⟨rfl, C5_notify_once_insert_failure_swallowed [entryETH] executeFault ts0 []
    (by decide) rfl rfl⟩

/-- Claim C8 counterexample: if `conn.cursor()` raises a
`psycopg2.Error` after the connection is acquired, the `finally` block
evaluates `cur.close()` with `cur` unbound, `UnboundLocalError`
propagates, and `conn.close()` is never reached — an exit path of the
sink that acquired a connection but does not release it. -/
theorem C8_counterexample :
    (insert_data cursorFault ts0 [] [entryETH]).connAcquired = true ∧
    (insert_data cursorFault ts0 [] [entryETH]).connReleased = false ∧
    (insert_data cursorFault ts0 [] [entryETH]).result =
      .uncaught "UnboundLocalError" := by
  decide

/-- Claim C8 (amended): on every exit path of `insert_data` on which
the cursor acquisition does not itself fail — success, insert failure,
or the no-valid-records path — a run that acquired the connection
releases both the cursor and the connection before returning; but when
`conn.cursor()` raises, the cleanup itself raises `UnboundLocalError`
and the connection is not released. -/
theorem C8_resources_released_when_cursor_ok (f : DBFaults) (ts : String)
    (table0 : List MarketRecord) (data : List Entry)
    (hcur : f.cursorFails = false) :
    (insert_data f ts table0 data).connAcquired = true →
      (insert_data f ts table0 data).connReleased = true ∧
      (insert_data f ts table0 data).cursorClosed = true := by
  cases hd : data.isEmpty <;> cases hc : f.connectFails <;>
    cases hrec : (shapeRecords ts data).isEmpty <;>
      cases he : f.executeFails <;> cases hcm : f.commitFails <;>
        simp [insert_data, hd, hc, hcur, hrec, he, hcm]

/-- Claim C8 witness: the insert-failure path releases both handles. -/
theorem C8_resources_released_when_cursor_ok_witness :
    (insert_data executeFault ts0 [] [entryETH]).connAcquired = true ∧
    (insert_data executeFault ts0 [] [entryETH]).connReleased = true ∧
    (insert_data executeFault ts0 [] [entryETH]).cursorClosed = true :=
  ⟨by decide,
    C8_resources_released_when_cursor_ok executeFault ts0 [] [entryETH] rfl
      (by decide)⟩

/-- Claim C9 counterexample: a non-empty input whose entries are all
incomplete yields zero valid records, but `insert_data` connects
before shaping; with the connection failing, `sys.exit(1)` terminates
the process, so the cycle does not complete and nothing is reported —
"the cycle completes without raising" is false as stated. -/
theorem C9_counterexample :
    shapeRecords ts0 [entryBad] = [] ∧
    ([entryBad] : List Entry) ≠ [] ∧
    (main (.ok [entryBad]) connFault ts0 []).result = .exited 1 := by
  decide

/-- Claim C9 (amended): when the sink's input yields zero valid
records, no insert statement is executed, the absence of written
records is reported, and the call and the cycle complete normally —
unconditionally for an empty input list (the sink returns before
touching the database), and for a non-empty all-invalid input provided
the connection and cursor are acquired (connection acquisition
precedes shaping, and its failure exits the process). -/
theorem C9_zero_valid_records_no_insert (f : DBFaults) (ts : String)
    (table0 : List MarketRecord) (data : List Entry)
    (hzero : shapeRecords ts data = [])
    (hok : data = [] ∨ (f.connectFails = false ∧ f.cursorFails = false)) :
    (insert_data f ts table0 data).executedInsert = false ∧
    (insert_data f ts table0 data).table = table0 ∧
    (insert_data f ts table0 data).result = .ok ∧
    (LogMsg.noDataToInsert ∈ (insert_data f ts table0 data).logs ∨
      LogMsg.noValidRecords ∈ (insert_data f ts table0 data).logs) ∧
    (main (.ok data) f ts table0).result = .ok := by
  rcases hok with h0 | ⟨hc, hcur⟩
  · subst h0
    exact ⟨rfl, rfl, rfl, Or.inl (by simp [insert_data]), rfl⟩
  · cases hd : data.isEmpty
    · have hres := insert_data_result_ok f ts table0 data hc hcur
      refine ⟨?_, ?_, hres, ?_, ?_⟩
      · simp [insert_data, hd, hc, hcur, hzero]
      · simp [insert_data, hd, hc, hcur, hzero]
      · refine Or.inr ?_
        simp [insert_data, hd, hc, hcur, hzero]
      · unfold main
        simp only [get_crypto_data]
        rw [hd]
        simp only [Bool.false_eq_true, if_false]
        rw [hres]
    · have h0 : data = [] := eq_nil_of_isEmpty hd
      subst h0
      exact ⟨rfl, rfl, rfl, Or.inl (by simp [insert_data]), rfl⟩

/-- Claim C9 witness: one all-invalid entry, no faults. -/
theorem C9_zero_valid_records_no_insert_witness :
    (insert_data noFaults ts0 [recBTC] [entryBad]).executedInsert = false ∧
    (insert_data noFaults ts0 [recBTC] [entryBad]).table = [recBTC] ∧
    (insert_data noFaults ts0 [recBTC] [entryBad]).result = .ok ∧
    (LogMsg.noDataToInsert ∈ (insert_data noFaults ts0 [recBTC] [entryBad]).logs ∨
      LogMsg.noValidRecords ∈
        (insert_data noFaults ts0 [recBTC] [entryBad]).logs) ∧
    (main (.ok [entryBad]) noFaults ts0 [recBTC]).result = .ok :=
  C9_zero_valid_records_no_insert noFaults ts0 [recBTC] [entryBad]
    (by decide) (Or.inr ⟨rfl, rfl⟩)

end CryptoETL
